import Mathlib

/-!
Verification development for the animalese typing-sound extension.

Shallow embedding of the core source files:
  * charTypeChecks.ts                — character classification predicates
  * get/filePath.ts                  — asset path resolver with process-wide cache
  * audio.ts (channel version)       — pitch/volume modulation, channel manager, playback
  * audio.ts (plain version)         — settings-driven falloff variant
  * extension.ts                     — validateAudioFilePath glue

Conventions: JS numbers are embedded as ℚ (exact arithmetic), JS string
truthiness as "≠ empty string", `Math.random()` as an explicit parameter,
`Map` objects as association lists, and `path.join` as intercalation with "/".
Constants whose defining file is not part of the provided sources
(constants/charTypes.ts, constants/voiceList.ts) are modelled from the spec
and carry a doc comment saying so.
-/

namespace Animalese

/-- Settings object from settings/pluginSettings.ts (field names as in source).
Numeric fields are ℚ, flags Bool, `voice` and `soundOverride` strings. -/
structure Settings where
  volume : ℚ
  voice : String
  intonation_falloffTime : ℚ
  intonation_disableFalloff : Bool
  intonation_pitchShift : ℚ
  intonation_pitchVariation : ℚ
  intonation_switchToExponentialFalloff : Bool
  intonation_louderUppercase : ℚ
  specialPunctuation : Bool
  soundOverride : String
deriving DecidableEq, Repr

/-- The default `settings` object of settings/pluginSettings.ts. -/
def defaultSettings : Settings :=
  { volume := 50
    voice := "Female Voice 1 (Sweet)"
    intonation_falloffTime := 1/2
    intonation_disableFalloff := true
    intonation_pitchShift := 0
    intonation_pitchVariation := 100
    intonation_switchToExponentialFalloff := false
    intonation_louderUppercase := 20
    specialPunctuation := false
    soundOverride := "" }

/-- TS union type `string | number` taken by the charTypeChecks predicates. -/
inductive CharInput where
  | str (s : String)
  | num (n : ℚ)
deriving DecidableEq

/-- Modelled from the spec: constants/charTypes.ts is not among the provided
sources. §4.1 rule 2: the harmonic set is "digits 0–9 plus a small fixed set
such as `-`, `=`". -/
def HARMONIC_CHARACTERS : List String :=
  ["0", "1", "2", "3", "4", "5", "6", "7", "8", "9", "-", "="]

/-- Modelled from the spec: constants/charTypes.ts is not among the provided
sources. Glossary: "Melodic: synonym family used for inputs (harmonic
characters plus numeric-typed inputs) that receive the non-randomized pitch
treatment" — the string members coincide with the harmonic set. -/
def MELODIC_CHARACTERS : List String := HARMONIC_CHARACTERS

/-- Modelled from the spec: constants/charTypes.ts is not among the provided
sources. §4.1 rule 4: the fixed symbol set is the domain of the
symbol-to-name table (punctuation/bracket characters). -/
def SYMBOLS : List String :=
  ["~", "!", "@", "#", "$", "%", "^", "&", "*", "(", ")",
   "\x7b", "\x7d", "[", "]", "?", "\n", "/", "\\"]

/-- Modelled from the spec: constants/voiceList.ts is not among the provided
sources. §6 gives `voice:enum[8 values]`; §3 maps selectors 0–3 to female and
4–7 to male voices. Only the first name is fixed by the source default in
settings/pluginSettings.ts; the remaining names are placeholders (no claim
depends on them). -/
def VOICE_LIST : List String :=
  ["Female Voice 1 (Sweet)", "Female Voice 2", "Female Voice 3",
   "Female Voice 4", "Male Voice 1", "Male Voice 2", "Male Voice 3",
   "Male Voice 4"]

/-- JS `Array.prototype.indexOf`: index of first occurrence, -1 when absent. -/
def jsIndexOf (l : List String) (x : String) : Int :=
  match l.findIdx? (fun y => y = x) with
  | some i => (i : Int)
  | none => -1

/-- charTypeChecks.ts `isMelodic`: numbers are melodic; strings are melodic
when they are members of MELODIC_CHARACTERS. -/
def isMelodic : CharInput → Bool
  | .num _ => true
  | .str s => MELODIC_CHARACTERS.contains s

/-- charTypeChecks.ts `isAlphabetical`: `/^[a-z]$/i.test(char)` for strings,
false for numbers. -/
def isAlphabetical : CharInput → Bool
  | .num _ => false
  | .str s =>
    match s.toList with
    | [c] => ('a' ≤ c && c ≤ 'z') || ('A' ≤ c && c ≤ 'Z')
    | _ => false

/-- charTypeChecks.ts `isHarmonic`: numbers are harmonic; strings are harmonic
when they are members of HARMONIC_CHARACTERS. -/
def isHarmonic : CharInput → Bool
  | .num _ => true
  | .str s => HARMONIC_CHARACTERS.contains s

/-- charTypeChecks.ts `isSymbolic`: false for numbers; strings are symbolic
when they are members of SYMBOLS. -/
def isSymbolic : CharInput → Bool
  | .num _ => false
  | .str s => SYMBOLS.contains s

/-- The regex `/^[A-Z]$/.test(key)` used by calculatePitch/calculateVolume. -/
def isUpperLetter (key : String) : Bool :=
  match key.toList with
  | [c] => 'A' ≤ c && c ≤ 'Z'
  | _ => false

/-- audio.ts `calculatePitch` (identical in both provided audio.ts versions).
`Math.random()` is the explicit parameter `r`. -/
def calculatePitch (key : String) (s : Settings) (r : ℚ) : ℚ :=
  let pitchShiftCents := s.intonation_pitchShift * 100
  if isMelodic (.str key) then
    pitchShiftCents
  else
    let randomVariation := r * s.intonation_pitchVariation * 2 -
      s.intonation_pitchVariation
    if s.intonation_louderUppercase > 0 && isUpperLetter key then
      pitchShiftCents +
        (3/2) *
        s.intonation_pitchVariation *
        (1 + s.intonation_louderUppercase / 100)
    else
      pitchShiftCents + randomVariation

/-- audio.ts `calculateVolume` (identical in both provided audio.ts versions).
The source calls no random generator here, so the embedding takes no random
parameter: gain is deterministic by construction. -/
def calculateVolume (key : String) (s : Settings) : ℚ :=
  let audioVolume := s.volume
  let audioVolume :=
    if s.intonation_louderUppercase > 0 && isUpperLetter key then
      audioVolume * (1 + s.intonation_louderUppercase / 100)
    else audioVolume
  audioVolume / 100

/-! ### Asset path resolver (get/filePath.ts) -/

/-- Node's `path.join` restricted to the plain relative-segment use made by
the resolver: intercalate with "/". -/
def pathJoin (parts : List String) : String :=
  String.intercalate "/" parts

/-- The process-wide `PATH_CACHE : Map<string, string>`, modelled as an
association list (insertion order is irrelevant to lookup). -/
def PathCache : Type := List (String × String)

/-- `Map.get`: first binding of the key, none when absent. -/
def cacheGet : List (String × String) → String → Option String
  | [], _ => none
  | (k, v) :: rest, key => if k = key then some v else cacheGet rest key

/-- `Map.set`: replace the binding of the key (or append a fresh one). -/
def cacheSet (cache : List (String × String)) (key value : String) :
    List (String × String) :=
  match cache with
  | [] => [(key, value)]
  | (k, v) :: rest =>
    if k = key then (k, value) :: rest else (k, v) :: cacheSet rest key value

/-- get/filePath.ts `symbolToName`: the fixed symbol-to-name table, `null`
(here `none`) outside its domain. -/
def symbolToName (sym : String) : Option String :=
  if sym = "~" then some "tilde"
  else if sym = "!" then some "exclamation"
  else if sym = "@" then some "at"
  else if sym = "#" then some "pound"
  else if sym = "$" then some "dollar"
  else if sym = "%" then some "percent"
  else if sym = "^" then some "caret"
  else if sym = "&" then some "ampersand"
  else if sym = "*" then some "asterisk"
  else if sym = "(" then some "parenthesis_open"
  else if sym = ")" then some "parenthesis_closed"
  else if sym = "\x7b" then some "brace_open"
  else if sym = "\x7d" then some "brace_closed"
  else if sym = "[" then some "bracket_open"
  else if sym = "]" then some "bracket_closed"
  else if sym = "?" then some "question"
  else if sym = "\n" then some "enter"
  else if sym = "/" then some "slash_forward"
  else if sym = "\\" then some "slash_back"
  else none

/-- The voiced-punctuation noise table `{ '!': 'Gwah', '?': 'Deska', '\n':
'OK' }` of get/filePath.ts; outside its domain JS indexing yields
`undefined`, which the template literal renders as "undefined". -/
def noiseName (key : String) : String :=
  if key = "!" then "Gwah"
  else if key = "?" then "Deska"
  else if key = "\n" then "OK"
  else "undefined"

/-- The cache key composed at the cache-LOOKUP step of get/filePath.ts
(line 26): `key + VOICE_LIST.indexOf(settings.voice) +
(+settings.specialPunctuation)`, reading the module-global settings. -/
def lookupCacheKey (key : String) (globalSettings : Settings) : String :=
  key ++ toString (jsIndexOf VOICE_LIST globalSettings.voice) ++
    (if globalSettings.specialPunctuation then "1" else "0")

/-- The cache key composed at the cache-STORE step of get/filePath.ts
(line 90): `key + settings.voice + (+settings.specialPunctuation)` — note it
interpolates the voice NAME where the lookup key interpolates its index. -/
def storeCacheKey (key : String) (globalSettings : Settings) : String :=
  key ++ globalSettings.voice ++
    (if globalSettings.specialPunctuation then "1" else "0")

/-- The switch statement of get/filePath.ts that classifies `key` and builds
the uncached path. The `'!' / '?' / newline` case with specialPunctuation
disabled has no `break`, so JS control FALLS THROUGH into the body of the
`isSymbolic` case without re-testing its guard; the embedding reproduces that
by duplicating the symbolic body in the else-branch of that case. -/
def computeFilePath (extensionPath key : String) (vocalIndex : Int)
    (pluginSettings : Settings) : String :=
  let gender := if vocalIndex ≤ 3 then "female" else "male"
  let slot := toString (vocalIndex.tmod 4 + 1)
  let animalesePath :=
    pathJoin [extensionPath, "audio", "animalese", gender, "voice_" ++ slot]
  let vocalsPath :=
    pathJoin [extensionPath, "audio", "vocals", gender, "voice_" ++ slot]
  let sfxPath := pathJoin [extensionPath, "audio", "sfx"]
  if isAlphabetical (.str key) then
    pathJoin [animalesePath, key ++ ".mp3"]
  else if isHarmonic (.str key) then
    pathJoin [vocalsPath, toString (jsIndexOf HARMONIC_CHARACTERS key) ++ ".mp3"]
  else if key = "!" || key = "?" || key.contains '\n' then
    if pluginSettings.specialPunctuation then
      pathJoin [animalesePath, noiseName key ++ ".mp3"]
    else
      pathJoin [sfxPath, ((symbolToName key).getD "default") ++ ".mp3"]
  else if isSymbolic (.str key) then
    pathJoin [sfxPath, ((symbolToName key).getD "default") ++ ".mp3"]
  else if key = "tab" || key = "backspace" then
    pathJoin [sfxPath, key ++ ".mp3"]
  else
    pathJoin [sfxPath, "default.mp3"]

/-- get/filePath.ts `getFilePath`. The function reads both its
`pluginSettings` argument and the imported module-global `settings` object;
the latter is the explicit `globalSettings` parameter here. The mutable
PATH_CACHE is threaded as state: the result pairs the returned path with the
cache after the call. String truthiness is "≠ empty". -/
def getFilePath (extensionPath key : String) (vocalIndex : Int)
    (pluginSettings globalSettings : Settings) (cache : List (String × String)) :
    String × List (String × String) :=
  if pluginSettings.soundOverride ≠ "" then
    (pluginSettings.soundOverride, cache)
  else
    let cachedPath := (cacheGet cache (lookupCacheKey key globalSettings)).getD ""
    if cachedPath ≠ "" && globalSettings.soundOverride = "" then
      (cachedPath, cache)
    else
      let filePath := computeFilePath extensionPath key vocalIndex pluginSettings
      (filePath, cacheSet cache (storeCacheKey key globalSettings) filePath)

/-! ### Gain envelopes (setupVolumeAndFalloff, both audio.ts versions) -/

/-- One scheduled operation on a Web Audio `gain` AudioParam. -/
inductive GainEvent where
  | setValueAtTime (value time : ℚ)
  | linearRampToValueAtTime (target endTime : ℚ)
  | exponentialRampToValueAtTime (target endTime : ℚ)
deriving DecidableEq, Repr

namespace ChannelAudio

/-- `setupVolumeAndFalloff` of the channel-based audio.ts (the version whose
playAudio takes a channel). It ignores every falloff setting: melodic keys
always get a fixed 500 ms exponential ramp to 1e-5, all other keys get no
envelope. Returns the list of events scheduled on the gain node, in order. -/
def setupVolumeAndFalloff (currentTime volume : ℚ) (key : String) :
    List GainEvent :=
  [.setValueAtTime volume currentTime] ++
    (if isMelodic (.str key) then
      [.exponentialRampToValueAtTime (1/100000) (currentTime + 1/2)]
    else [])

end ChannelAudio

namespace PlainAudio

/-- `setupVolumeAndFalloff` of the channel-less audio.ts: honours
`intonation_disableFalloff`, `intonation_falloffTime` and
`intonation_switchToExponentialFalloff`; the exponential ramp targets 1e-5,
the linear ramp targets exactly 0. -/
def setupVolumeAndFalloff (s : Settings) (currentTime volume : ℚ) :
    List GainEvent :=
  [.setValueAtTime volume currentTime] ++
    (if !s.intonation_disableFalloff then
      let endTime := currentTime + s.intonation_falloffTime
      if s.intonation_switchToExponentialFalloff then
        [.exponentialRampToValueAtTime (1/100000) endTime]
      else
        [.linearRampToValueAtTime 0 endTime]
    else [])

end PlainAudio

/-! ### Channel manager and playback engine (channel-based audio.ts)

Discrete-event model. Each playback is identified by a handle (Nat); the
process-wide `activeChannels : Map<number, {source, gainNode}>` becomes an
association list channel ↦ handle; `setTimeout` callbacks become explicit
pending timers fired when simulated time advances past their deadline; the
observable effects (gain ramps, source start/stop, registry updates) are
recorded in an ordered event log. `await getAudioData(...)` is modelled as
time advancing by the load duration, during which due timers fire. The
pitch/volume/envelope wiring of playAudio is embedded separately above
(calculatePitch, calculateVolume, setupVolumeAndFalloff) and is orthogonal to
the channel bookkeeping modelled here. -/

/-- Observable playback events, with the simulated time they concern. -/
inductive AudioEvent where
  | gainLinearRamp (handle : Nat) (target endTime : ℚ)
  | sourceStop (handle : Nat) (time : ℚ)
  | sourceStart (handle : Nat) (time : ℚ)
  | channelDelete (channel : Nat) (time : ℚ)
  | channelSet (channel : Nat) (handle : Nat) (time : ℚ)
deriving DecidableEq, Repr

/-- A pending `setTimeout` registered by cutOffAudioOnChannel: at `fireAt` it
stops the captured source and deletes the captured channel's entry. -/
structure TimerTask where
  fireAt : ℚ
  sourceHandle : Nat
  channel : Nat
deriving DecidableEq, Repr

/-- `activeChannels.get(channel)`. -/
def chLookup : List (Nat × Nat) → Nat → Option Nat
  | [], _ => none
  | (k, v) :: rest, c => if k = c then some v else chLookup rest c

/-- `activeChannels.delete(channel)`. -/
def chErase (l : List (Nat × Nat)) (c : Nat) : List (Nat × Nat) :=
  l.filter (fun p => p.1 ≠ c)

/-- `activeChannels.set(channel, handle)`. -/
def chInsert (l : List (Nat × Nat)) (c handle : Nat) : List (Nat × Nat) :=
  chErase l c ++ [(c, handle)]

/-- Simulated state of the channel-based playback engine. -/
structure AudioState where
  now : ℚ
  channels : List (Nat × Nat)
  timers : List TimerTask
  log : List AudioEvent
deriving DecidableEq, Repr

/-- Fire every pending timer whose deadline is ≤ `upto`, in list order.
Each firing replays the setTimeout body of cutOffAudioOnChannel: stop the
captured source (the try/catch makes this total) and delete the channel
entry — unconditionally, whatever handle now occupies the channel.
Returns (remaining timers, channels, log). -/
def fireTimers : List TimerTask → ℚ → List (Nat × Nat) → List AudioEvent →
    List TimerTask × List (Nat × Nat) × List AudioEvent
  | [], _, ch, log => ([], ch, log)
  | t :: rest, upto, ch, log =>
    if t.fireAt ≤ upto then
      fireTimers rest upto (chErase ch t.channel)
        (log ++ [.sourceStop t.sourceHandle t.fireAt,
                 .channelDelete t.channel t.fireAt])
    else
      let r := fireTimers rest upto ch log
      (t :: r.1, r.2.1, r.2.2)

/-- Advance simulated time by `d`, firing the timers that become due. -/
def advance (st : AudioState) (d : ℚ) : AudioState :=
  let r := fireTimers st.timers (st.now + d) st.channels st.log
  { now := st.now + d, timers := r.1, channels := r.2.1, log := r.2.2 }

/-- audio.ts `cutOffAudioOnChannel`: no-op when the channel has no occupant;
otherwise schedule a linear ramp of the occupant's gain to 0 ending
`fadeDuration` from now, and a timer that stops the source and deletes the
channel entry when the fade completes. The source default fadeDuration is
0.025 s. -/
def cutOffAudioOnChannel (st : AudioState) (channel : Nat)
    (fadeDuration : ℚ) : AudioState :=
  match chLookup st.channels channel with
  | none => st
  | some handle =>
    { st with
      log := st.log ++ [.gainLinearRamp handle 0 (st.now + fadeDuration)]
      timers := st.timers ++ [⟨st.now + fadeDuration, handle, channel⟩] }

/-- audio.ts `playAudio` (channel version), channel bookkeeping and timing:
cut off the channel's current occupant (25 ms fade), await the asset load
(`loadDelay` of simulated time), start the new source, register the new
handle on the channel. The pitch/gain computation it also performs is the
separately embedded calculatePitch/calculateVolume/setupVolumeAndFalloff. -/
def playAudio (st : AudioState) (channel : Option Nat) (newHandle : Nat)
    (loadDelay : ℚ) : AudioState :=
  let st1 := match channel with
    | some c => cutOffAudioOnChannel st c (1/40)
    | none => st
  let st2 := advance st1 loadDelay
  let st3 := { st2 with log := st2.log ++ [.sourceStart newHandle st2.now] }
  match channel with
  | some c =>
    { st3 with
      channels := chInsert st3.channels c newHandle
      log := st3.log ++ [.channelSet c newHandle st3.now] }
  | none => st3

/-- The `source.onended` handler of the channel-based playAudio:
`if (channel !== undefined) activeChannels.delete(channel)`. The handle of
the playback that ended is not consulted — the deletion is unconditional. -/
def onEndedRelease (channel : Option Nat) (channels : List (Nat × Nat)) :
    List (Nat × Nat) :=
  match channel with
  | some c => chErase channels c
  | none => channels

/-! ### validateAudioFilePath (extension.ts, channel version) -/

/-- extension.ts `validateAudioFilePath`. `fs.existsSync(filePath)` is the
explicit `fileExists` parameter; `vscode.window.showErrorMessage` is modelled
as the optional message in the result. Returns (validation result, error
message shown). Note the outer guard requires `settings.soundOverride` to be
truthy, exactly as in the source. -/
def validateAudioFilePath (fileExists : Bool) (filePath key : String)
    (s : Settings) : Bool × Option String :=
  if !fileExists && s.soundOverride ≠ "" then
    if s.soundOverride ≠ "" then
      (false, some ("The provided custom sound does not exist. " ++
        "Please change the soundOverride parameter to a valid path."))
    else
      (false, some ("An unknown error occurred trying to find the sound " ++
        "file corresponding to key " ++ key ++ ". Please raise an issue on " ++
        "the GitHub repository with the file path \"" ++ filePath ++ "\"."))
  else
    (true, none)

/-! ### Helper lemmas -/

/-- Strings accepted by `isHarmonic` are accepted by `isMelodic`: the two
membership lists coincide. -/
theorem melodic_of_harmonic (s : String) (h : isHarmonic (.str s) = true) :
    isMelodic (.str s) = true := by
  simpa [isMelodic, isHarmonic, MELODIC_CHARACTERS] using h

/-- A single uppercase letter is not melodic: no member of the melodic
character list is an uppercase letter. -/
theorem upper_not_melodic (key : String) (h : isUpperLetter key = true) :
    isMelodic (.str key) = false := by
  by_contra hc
  simp only [Bool.not_eq_false, isMelodic] at hc
  have hmem : key ∈ MELODIC_CHARACTERS := by
    simpa using hc
  simp only [MELODIC_CHARACTERS, HARMONIC_CHARACTERS] at hmem
  fin_cases hmem <;> simp [isUpperLetter] at h

/-- Erasing a channel leaves no binding for it. -/
theorem chLookup_chErase_self (reg : List (Nat × Nat)) (c : Nat) :
    chLookup (chErase reg c) c = none := by
  induction reg with
  | nil => rfl
  | cons p rest ih =>
    by_cases hp : p.1 = c
    · simpa [chErase, hp] using ih
    · simpa [chErase, chLookup, hp] using ih

/-- Erasing a channel with no binding is the identity. -/
theorem chErase_of_lookup_none (reg : List (Nat × Nat)) (c : Nat)
    (h : chLookup reg c = none) : chErase reg c = reg := by
  induction reg with
  | nil => rfl
  | cons p rest ih =>
    rw [show p = (p.1, p.2) from rfl] at h
    by_cases hp : p.1 = c
    · simp [chLookup, hp] at h
    · have h' : chLookup rest c = none := by simpa [chLookup, hp] using h
      have h2 := ih h'
      simp only [chErase] at h2 ⊢
      rw [List.filter_cons, h2]
      simp [hp]

/-! ### Claims -/

/-- Claim C5: whenever `soundOverride` is non-empty, `getFilePath` returns
exactly the override string and leaves the cache untouched — no
classification, no cache lookup or store, regardless of token, voice index,
or the other settings. -/
theorem C5_override_precedence (extensionPath key : String) (vocalIndex : Int)
    (ps gs : Settings) (cache : List (String × String))
    (h : ps.soundOverride ≠ "") :
    getFilePath extensionPath key vocalIndex ps gs cache =
      (ps.soundOverride, cache) := by
  simp [getFilePath, h]

/-- Witness for C5 at a concrete override. -/
theorem C5_override_witness :
    getFilePath "ext" "a" 0 { defaultSettings with soundOverride := "/o.mp3" }
      defaultSettings [] = ("/o.mp3", []) :=
  C5_override_precedence "ext" "a" 0 _ defaultSettings [] (by decide)

/-- Claim C6: for every token classified Harmonic, `calculatePitch` returns
exactly the base pitch shift in cents (`intonation_pitchShift * 100`), with
zero variance across repeated calls (the random draw `r` is irrelevant). -/
theorem C6_harmonic_pitch (key : String) (s : Settings) (r r' : ℚ)
    (h : isHarmonic (.str key) = true) :
    calculatePitch key s r = s.intonation_pitchShift * 100 ∧
    calculatePitch key s r = calculatePitch key s r' := by
  have hm := melodic_of_harmonic key h
  simp [calculatePitch, hm]

/-- Witness for C6 at token "5" and two distinct random draws. -/
theorem C6_harmonic_pitch_witness :
    calculatePitch "5" defaultSettings (1/3) =
      defaultSettings.intonation_pitchShift * 100 ∧
    calculatePitch "5" defaultSettings (1/3) =
      calculatePitch "5" defaultSettings (2/3) :=
  C6_harmonic_pitch "5" defaultSettings (1/3) (2/3) (by decide)

/-- Claim C7: for a single uppercase letter with louderUppercasePercent = 20,
`calculateVolume` returns exactly `(volume/100) * 1.2` (unclamped) and
`calculatePitch` returns exactly `pitchShiftCents + 1.5 * variation * 1.2`,
with no contribution from the random draw. -/
theorem C7_uppercase_boost (key : String) (s : Settings) (r : ℚ)
    (hk : isUpperLetter key = true)
    (hl : s.intonation_louderUppercase = 20) :
    calculateVolume key s = s.volume / 100 * (6/5) ∧
    calculatePitch key s r =
      s.intonation_pitchShift * 100 +
        (3/2) * s.intonation_pitchVariation * (6/5) ∧
    (∀ r', calculatePitch key s r' = calculatePitch key s r) := by
  have hm := upper_not_melodic key hk
  have hcond :
      (decide (s.intonation_louderUppercase > 0) && isUpperLetter key) = true := by
    rw [hl, hk]
    decide
  refine ⟨?_, ?_, ?_⟩
  · simp only [calculateVolume, hcond, if_true]
    rw [hl]
    ring
  · simp only [calculatePitch, hm, Bool.false_eq_true, if_false, hcond, if_true]
    rw [hl]
    ring
  · intro r'
    simp only [calculatePitch, hm, Bool.false_eq_true, if_false, hcond, if_true]

/-- Witness for C7 at token "A" with volume 90 (gain 1.08 > 1, unclamped). -/
theorem C7_uppercase_witness :
    calculateVolume "A" { defaultSettings with volume := 90 } =
      (90 : ℚ) / 100 * (6/5) ∧
    calculatePitch "A" { defaultSettings with volume := 90 } (1/7) =
      0 * 100 + (3/2) * 100 * (6/5) :=
  ⟨(C7_uppercase_boost "A" _ (1/7) (by decide) rfl).1,
   (C7_uppercase_boost "A" _ (1/7) (by decide) rfl).2.1⟩

/-- Claim C10: gain is deterministic (the source consults no randomness in
`calculateVolume`, so the embedding takes no random parameter), and for any
token that is not a single uppercase letter the result is exactly
`volume / 100`, independent of every other setting including
louderUppercasePercent. -/
theorem C10_gain_deterministic (key : String) (s t : Settings)
    (hk : isUpperLetter key = false) (hv : s.volume = t.volume) :
    calculateVolume key s = calculateVolume key t ∧
    calculateVolume key s = s.volume / 100 := by
  constructor
  · simp [calculateVolume, hk, hv]
  · simp [calculateVolume, hk]

/-- Witness for C10 at token ":" across two settings differing in
louderUppercasePercent. -/
theorem C10_gain_witness :
    calculateVolume ":" defaultSettings =
      calculateVolume ":" { defaultSettings with intonation_louderUppercase := 77 } ∧
    calculateVolume ":" defaultSettings = defaultSettings.volume / 100 :=
  C10_gain_deterministic ":" defaultSettings
    { defaultSettings with intonation_louderUppercase := 77 } (by decide) rfl

/-- Claim C8: for the token "!", with specialPunctuation = false the resolver
returns the Symbolic-branch path `sfx/exclamation.mp3` (reached through the
intentional case fallthrough), and with specialPunctuation = true and voice
selector 2 it returns the voiced exclamation-noise asset (file "Gwah") under
`animalese/female/voice_3/` (selector 2 ≤ 3 gives female, slot
(2 mod 4) + 1 = 3). -/
theorem C8_exclamation_scenarios :
    (getFilePath "ext" "!" 2 defaultSettings defaultSettings []).1 =
      "ext/audio/sfx/exclamation.mp3" ∧
    (getFilePath "ext" "!" 2 { defaultSettings with specialPunctuation := true }
      { defaultSettings with specialPunctuation := true } []).1 =
      "ext/audio/animalese/female/voice_3/Gwah.mp3" := by
  constructor <;> rfl

/-- Claim C1 (refuting evaluation): the cache-store step composes its key
from the voice NAME (`settings.voice`) while the cache-lookup step composes
it from the voice INDEX (`VOICE_LIST.indexOf(settings.voice)`). At the
default settings with token "a" the first call stores under
"aFemale Voice 1 (Sweet)0" but the second call looks up "a00", so the second
call misses the cache and recomputes; the two calls still return identical
strings because resolution is deterministic. -/
theorem C1_cache_key_mismatch :
    storeCacheKey "a" defaultSettings = "aFemale Voice 1 (Sweet)0" ∧
    lookupCacheKey "a" defaultSettings = "a00" ∧
    (getFilePath "ext" "a" 0 defaultSettings defaultSettings []).2 =
      [("aFemale Voice 1 (Sweet)0", "ext/audio/animalese/female/voice_1/a.mp3")] ∧
    cacheGet (getFilePath "ext" "a" 0 defaultSettings defaultSettings []).2
      (lookupCacheKey "a" defaultSettings) = none ∧
    (getFilePath "ext" "a" 0 defaultSettings defaultSettings
        (getFilePath "ext" "a" 0 defaultSettings defaultSettings []).2).1 =
      (getFilePath "ext" "a" 0 defaultSettings defaultSettings []).1 := by
  refine ⟨rfl, rfl, rfl, rfl, rfl⟩

/-- Claim C9 (refuting evaluation): `validateAudioFilePath`'s outer guard is
`!fs.existsSync(filePath) && settings.soundOverride`, so when soundOverride
is empty and the resolved file is missing the function returns true with no
message — playback proceeds and no "unknown sound asset" condition is ever
reported (that else-branch is dead code). With soundOverride set and the
file missing, the distinct user-configured-path-invalid message is shown and
playback is skipped, as the claim states. -/
theorem C9_missing_file_validation :
    validateAudioFilePath false "ext/audio/sfx/default.mp3" "a"
      defaultSettings = (true, none) ∧
    validateAudioFilePath false "/custom.mp3" "a"
      { defaultSettings with soundOverride := "/custom.mp3" } =
      (false, some ("The provided custom sound does not exist. " ++
        "Please change the soundOverride parameter to a valid path.")) := by
  constructor <;> rfl

/-- Claim C3 counterexample: at the default settings
(`intonation_disableFalloff = true`) the channel-version
`setupVolumeAndFalloff` still schedules a gain envelope (a fixed 500 ms
exponential ramp) after the initial gain for the melodic token "0", refuting
"if disableFalloff is true, no gain envelope is applied after the initial
gain is set". The function does not consult the falloff settings at all. -/
theorem C3_falloff_counterexample :
    defaultSettings.intonation_disableFalloff = true ∧
    ChannelAudio.setupVolumeAndFalloff 0 (1/2) "0" =
      [.setValueAtTime (1/2) 0,
       .exponentialRampToValueAtTime (1/100000) (0 + 1/2)] :=
  ⟨rfl, rfl⟩

/-- Claim C3 amended: the settings-driven `setupVolumeAndFalloff` (plain
audio.ts) honours the claim — no envelope when disableFalloff is true,
otherwise a ramp over falloffTimeSeconds, exponential to the near-zero floor
1e-5 when exponentialFalloff is set, else linear to exactly 0; the
channel-version `setupVolumeAndFalloff` ignores the falloff settings and
instead always applies a fixed 500 ms exponential ramp to 1e-5 for melodic
tokens and no envelope for any other token. -/
theorem C3_falloff_amended (s : Settings) (t v : ℚ) (key : String) :
    (s.intonation_disableFalloff = true →
      PlainAudio.setupVolumeAndFalloff s t v = [.setValueAtTime v t]) ∧
    (s.intonation_disableFalloff = false →
      s.intonation_switchToExponentialFalloff = true →
      PlainAudio.setupVolumeAndFalloff s t v =
        [.setValueAtTime v t,
         .exponentialRampToValueAtTime (1/100000)
           (t + s.intonation_falloffTime)]) ∧
    (s.intonation_disableFalloff = false →
      s.intonation_switchToExponentialFalloff = false →
      PlainAudio.setupVolumeAndFalloff s t v =
        [.setValueAtTime v t,
         .linearRampToValueAtTime 0 (t + s.intonation_falloffTime)]) ∧
    (isMelodic (.str key) = true →
      ChannelAudio.setupVolumeAndFalloff t v key =
        [.setValueAtTime v t,
         .exponentialRampToValueAtTime (1/100000) (t + 1/2)]) ∧
    (isMelodic (.str key) = false →
      ChannelAudio.setupVolumeAndFalloff t v key = [.setValueAtTime v t]) := by
  refine ⟨?_, ?_, ?_, ?_, ?_⟩ <;> intro h
  · simp [PlainAudio.setupVolumeAndFalloff, h]
  · intro h2
    simp [PlainAudio.setupVolumeAndFalloff, h, h2]
  · intro h2
    simp [PlainAudio.setupVolumeAndFalloff, h, h2]
  · simp [ChannelAudio.setupVolumeAndFalloff, h]
  · simp [ChannelAudio.setupVolumeAndFalloff, h]

/-- Witness for C3: every branch of the amended statement at concrete
inputs — disabled falloff, exponential falloff, linear falloff, a melodic
token and a non-melodic token. -/
theorem C3_falloff_witness :
    PlainAudio.setupVolumeAndFalloff defaultSettings 0 (1/2) =
      [.setValueAtTime (1/2) 0] ∧
    PlainAudio.setupVolumeAndFalloff
      { defaultSettings with
        intonation_disableFalloff := false
        intonation_switchToExponentialFalloff := true } 0 (1/2) =
      [.setValueAtTime (1/2) 0,
       .exponentialRampToValueAtTime (1/100000) (0 + 1/2)] ∧
    PlainAudio.setupVolumeAndFalloff
      { defaultSettings with intonation_disableFalloff := false } 0 (1/2) =
      [.setValueAtTime (1/2) 0, .linearRampToValueAtTime 0 (0 + 1/2)] ∧
    ChannelAudio.setupVolumeAndFalloff 0 (1/2) "0" =
      [.setValueAtTime (1/2) 0,
       .exponentialRampToValueAtTime (1/100000) (0 + 1/2)] ∧
    ChannelAudio.setupVolumeAndFalloff 0 (1/2) "q" = [.setValueAtTime (1/2) 0] :=
  ⟨(C3_falloff_amended defaultSettings 0 (1/2) "0").1 rfl,
   (C3_falloff_amended { defaultSettings with
      intonation_disableFalloff := false
      intonation_switchToExponentialFalloff := true } 0 (1/2) "0").2.1 rfl rfl,
   (C3_falloff_amended { defaultSettings with
      intonation_disableFalloff := false } 0 (1/2) "0").2.2.1 rfl rfl,
   (C3_falloff_amended defaultSettings 0 (1/2) "0").2.2.2.1 (by decide),
   (C3_falloff_amended defaultSettings 0 (1/2) "q").2.2.2.2 (by decide)⟩

/-- Claim C4 counterexample: the natural-end release (`source.onended`) and
the cutoff timer both delete the channel entry without consulting the handle
of the playback that triggered them. With channel 1 occupied by the newer
handle 7, running the release installed by the older playback (handle 5 ≠ 7)
removes handle 7's entry — refuting "removes the channel's active entry only
if that entry still refers to the same handle" and "a stale release never
removes a newer occupant's entry". -/
theorem C4_stale_release_counterexample :
    chLookup [(1, 7)] 1 = some 7 ∧ (5 : Nat) ≠ 7 ∧
    onEndedRelease (some 1) [(1, 7)] = [] ∧
    (fireTimers [⟨0, 5, 1⟩] 0 [(1, 7)] []).2.1 = [] := by
  refine ⟨rfl, by decide, rfl, rfl⟩

/-- Claim C4 amended: a release arriving for a channel never raises an error
and is an idempotent no-op when the channel has no active entry, but it is
not guarded by handle: whenever the channel has an active entry — even a
newer occupant's — the release (and likewise the cutoff timer) removes it
unconditionally. -/
theorem C4_release_amended (c : Nat) (reg : List (Nat × Nat)) :
    (chLookup reg c = none → onEndedRelease (some c) reg = reg) ∧
    (∀ v, chLookup reg c = some v →
      chLookup (onEndedRelease (some c) reg) c = none) ∧
    onEndedRelease none reg = reg ∧
    (∀ t sid log, (fireTimers [⟨t, sid, c⟩] t reg log).2.1 = chErase reg c) := by
  refine ⟨?_, ?_, rfl, ?_⟩
  · intro h
    simpa [onEndedRelease] using chErase_of_lookup_none reg c h
  · intro v _
    simpa [onEndedRelease] using chLookup_chErase_self reg c
  · intro t sid log
    simp [fireTimers]

/-- Witness for C4: the amended statement at concrete registries — a release
on an unoccupied channel is a no-op, and a release on an occupied channel
clears it. -/
theorem C4_release_witness :
    onEndedRelease (some 1) [(2, 9)] = [(2, 9)] ∧
    chLookup (onEndedRelease (some 1) [(1, 4)]) 1 = none :=
  ⟨(C4_release_amended 1 [(2, 9)]).1 (by decide),
   (C4_release_amended 1 [(1, 4)]).2.1 4 (by decide)⟩

/-- Computation of `playAudio` on a channel occupied by `oldId`, for every
asset-load duration `d`: if the load outlasts the 25 ms fade the cutoff timer
fires during the await (stop + registry delete at t0 + 1/40), otherwise it is
still pending when the new sound starts; either way the new handle ends up
registered on the channel. -/
theorem playAudio_occupied_eq (t0 : ℚ) (c oldId newId : Nat) (d : ℚ) :
    (playAudio ⟨t0, [(c, oldId)], [], []⟩ (some c) newId d) =
      (if (1/40 : ℚ) ≤ d then
        ⟨t0 + d, [(c, newId)], [],
          [.gainLinearRamp oldId 0 (t0 + 1/40),
           .sourceStop oldId (t0 + 1/40), .channelDelete c (t0 + 1/40),
           .sourceStart newId (t0 + d), .channelSet c newId (t0 + d)]⟩
      else
        ⟨t0 + d, [(c, newId)], [⟨t0 + 1/40, oldId, c⟩],
          [.gainLinearRamp oldId 0 (t0 + 1/40),
           .sourceStart newId (t0 + d), .channelSet c newId (t0 + d)]⟩) := by
  by_cases hd : (1/40 : ℚ) ≤ d
  all_goals rw [one_div] at hd
  · simp [playAudio, cutOffAudioOnChannel, advance, fireTimers, chLookup,
      chInsert, chErase, hd, add_le_add_iff_left]
  · simp [playAudio, cutOffAudioOnChannel, advance, fireTimers, chLookup,
      chInsert, chErase, hd, add_le_add_iff_left]

/-- Claim C2: requesting playback on a channel whose occupant is `oldId`
(a) schedules a linear ramp of the occupant's gain to 0 ending a fixed 25 ms
after the request, (b) starts the new sound as soon as its asset load
completes — after `d` of simulated time, for every `d`, so without waiting
for the fade (the witness uses d = 10 ms < 25 ms), (c) leaves the channel
reserved for the new handle (the later reserve wins), (d) stops and releases
the previous occupant exactly when the fade completes, and (e) never emits
another start event for the previous occupant — it never resumes. -/
theorem C2_channel_cutoff (t0 : ℚ) (c oldId newId : Nat) (d : ℚ)
    (hne : oldId ≠ newId) :
    .gainLinearRamp oldId 0 (t0 + 1/40) ∈
      (playAudio ⟨t0, [(c, oldId)], [], []⟩ (some c) newId d).log ∧
    .sourceStart newId (t0 + d) ∈
      (playAudio ⟨t0, [(c, oldId)], [], []⟩ (some c) newId d).log ∧
    chLookup (playAudio ⟨t0, [(c, oldId)], [], []⟩ (some c) newId d).channels c =
      some newId ∧
    (∀ e, 1/40 ≤ d + e → .sourceStop oldId (t0 + 1/40) ∈
      (advance (playAudio ⟨t0, [(c, oldId)], [], []⟩ (some c) newId d) e).log) ∧
    (∀ e t', .sourceStart oldId t' ∉
      (advance (playAudio ⟨t0, [(c, oldId)], [], []⟩ (some c) newId d) e).log) := by
  rw [playAudio_occupied_eq]
  by_cases hd : (1/40 : ℚ) ≤ d
  · rw [if_pos hd]
    refine ⟨by simp, by simp, by simp [chLookup], ?_, ?_⟩
    · intro e he
      simp [advance, fireTimers]
    · intro e t'
      simp [advance, fireTimers, hne]
  · rw [if_neg hd]
    refine ⟨by simp, by simp, by simp [chLookup], ?_, ?_⟩
    · intro e he
      rw [one_div] at he
      simp [advance, fireTimers, add_assoc, add_le_add_iff_left, he]
    · intro e t'
      by_cases he : (40⁻¹ : ℚ) ≤ d + e
      · simp [advance, fireTimers, add_assoc, add_le_add_iff_left, he, hne]
      · simp [advance, fireTimers, add_assoc, add_le_add_iff_left, he, hne]

/-- Witness for C2 on channel 1, previous occupant 5, new sound 6, load
delay 10 ms (shorter than the 25 ms fade: the new sound starts while the old
one is still fading), flushed 1 s further so the pending cutoff timer fires. -/
theorem C2_channel_witness :
    .gainLinearRamp 5 0 ((0 : ℚ) + 1/40) ∈
      (playAudio ⟨0, [(1, 5)], [], []⟩ (some 1) 6 (1/100)).log ∧
    .sourceStart 6 ((0 : ℚ) + 1/100) ∈
      (playAudio ⟨0, [(1, 5)], [], []⟩ (some 1) 6 (1/100)).log ∧
    chLookup (playAudio ⟨0, [(1, 5)], [], []⟩ (some 1) 6 (1/100)).channels 1 =
      some 6 ∧
    .sourceStop 5 ((0 : ℚ) + 1/40) ∈
      (advance (playAudio ⟨0, [(1, 5)], [], []⟩ (some 1) 6 (1/100)) 1).log ∧
    .sourceStart 5 (37 : ℚ) ∉
      (advance (playAudio ⟨0, [(1, 5)], [], []⟩ (some 1) 6 (1/100)) 1).log :=
  have h := C2_channel_cutoff 0 1 5 6 (1/100) (by decide)
  ⟨h.1, h.2.1, h.2.2.1, h.2.2.2.1 1 (by norm_num), h.2.2.2.2 1 37⟩

end Animalese
